import Mathlib

/-!
Verification of the chore-tracker client against its specification.

The development shallowly embeds the state-changing handlers of
`src/app/page.tsx` and the join flow of `src/lib/supabaseClient.ts`
(LoginScreen) as pure Lean functions.  React component state becomes an
explicit `AppState` record; each handler takes the state it captured on
entry together with the outcome of every remote (Supabase) call it issues
and returns the state after all enqueued `setX` updates have been applied,
plus the list of remote operations it issued, in order.  Remote outcomes
are modelled as `Except String`: an exception carries the message string
that `getErrorMessage` would extract from the thrown error.
-/

/-- In-memory assignee record (interface `Assignee` in page.tsx). -/
structure Assignee where
  id : String
  name : String
  household_id : String
deriving Repr, DecidableEq

/-- In-memory category record (interface `Category` in page.tsx).
The optional client-only `isOpen` flag is kept as a `Bool`; every code
path that builds a category sets it explicitly. -/
structure Category where
  id : String
  name : String
  isOpen : Bool
  assigneeIds : List String
  household_id : String
deriving Repr, DecidableEq

/-- In-memory chore record (interface `Chore` in page.tsx).  `categoryId`
is `string | null | undefined` in the source, embedded as `Option String`. -/
structure Chore where
  id : String
  title : String
  completed : Bool
  assigneeIds : List String
  categoryId : Option String
  household_id : String
deriving Repr, DecidableEq

/-- Database row shape for chores (interface `ChoreDB`): snake_case fields
as returned by Supabase.  `assignee_ids` and `category_id` may be null at
runtime (the client guards with `|| []` and `|| null`), hence `Option`. -/
structure ChoreDB where
  id : String
  title : String
  completed : Bool
  household_id : String
  assignee_ids : Option (List String)
  category_id : Option String
deriving Repr, DecidableEq

/-- Database row shape for categories (interface `CategoryDB`). -/
structure CategoryDB where
  id : String
  name : String
  household_id : String
  assignee_ids : Option (List String)
deriving Repr, DecidableEq

/-- The component state the handlers read and write: the three entity
collections, the global error banner, and the household scope. -/
structure AppState where
  assignees : List Assignee
  categories : List Category
  chores : List Chore
  error : Option String
  householdId : String
deriving Repr, DecidableEq

/-- JavaScript string-or-default: `m || d` for strings (falls back when
`m` is the empty string). -/
def orDefault (m d : String) : String := if m = "" then d else m

/-- JavaScript `v || null` on a nullable string: an empty string collapses
to null. -/
def jsOrNull : Option String → Option String
  | some s => if s = "" then none else some s
  | none => none

/-- JavaScript truthiness of a nullable string (`if (chore.categoryId)`):
null, undefined and the empty string are falsy. -/
def strTruthy : Option String → Bool
  | some s => s ≠ ""
  | none => false

/-- JavaScript String.prototype.trim, modelled on the character list so
that it evaluates by kernel reduction: strip leading and trailing
whitespace characters. -/
def String.jsTrim (s : String) : String :=
  ⟨((s.data.dropWhile Char.isWhitespace).reverse.dropWhile
      Char.isWhitespace).reverse⟩

/-- JavaScript String.prototype.toLowerCase, modelled characterwise. -/
def String.jsToLower (s : String) : String := ⟨s.data.map Char.toLower⟩

/-- JavaScript String.prototype.toUpperCase, modelled characterwise. -/
def String.jsToUpper (s : String) : String := ⟨s.data.map Char.toUpper⟩

/-- Translate a chore row from the database to the in-memory shape, as the
load and insert handlers do (`assignee_ids || []`, `category_id || null`). -/
def choreFromDB (c : ChoreDB) : Chore :=
  { id := c.id
    title := c.title
    completed := c.completed
    assigneeIds := c.assignee_ids.getD []
    categoryId := jsOrNull c.category_id
    household_id := c.household_id }

/-- Translate a category row from the database to the in-memory shape with
`isOpen: true`, as `handleAddCategory` and the loader do. -/
def categoryFromDB (c : CategoryDB) : Category :=
  { id := c.id
    name := c.name
    isOpen := true
    assigneeIds := c.assignee_ids.getD []
    household_id := c.household_id }

/-- The result of the effective-assignee computation. -/
structure EffectiveAssignees where
  assigneeIds : List String
  isInherited : Bool
deriving Repr, DecidableEq

/-- `getEffectiveAssignees` from page.tsx: direct assignees win; otherwise
a truthy `categoryId` is looked up in the category collection and a
non-empty default list is inherited; otherwise no assignees. -/
def getEffectiveAssignees (categories : List Category) (chore : Chore) :
    EffectiveAssignees :=
  if chore.assigneeIds.length > 0 then
    { assigneeIds := chore.assigneeIds, isInherited := false }
  else if strTruthy chore.categoryId then
    match categories.find? (fun cat => some cat.id == chore.categoryId) with
    | some cat =>
        if cat.assigneeIds.length > 0 then
          { assigneeIds := cat.assigneeIds, isInherited := true }
        else
          { assigneeIds := [], isInherited := false }
    | none => { assigneeIds := [], isInherited := false }
  else
    { assigneeIds := [], isInherited := false }

/-- A remote (Supabase) operation issued by a handler, recorded in issue
order. -/
inductive RemoteOp where
  | insertChore (title : String) (completed : Bool)
      (assignee_ids : List String) (category_id : Option String)
      (household_id : String)
  | insertAssignee (name : String) (household_id : String)
  | insertCategory (name : String) (assignee_ids : List String)
      (household_id : String)
  | updateChoreCompleted (choreId : String) (completed : Bool)
  | updateChoreAssignees (choreId : String) (assignee_ids : List String)
  | updateChoreCategory (choreId : String) (category_id : Option String)
  | clearCategoryOfChores (categoryId : String)
  | updateCategoryAssignees (categoryId : String)
      (assignee_ids : List String)
  | deleteChoreRow (choreId : String)
  | deleteCategoryRow (categoryId : String)
  | deleteAssigneeRow (assigneeId : String)
deriving Repr, DecidableEq

/-- True for the update operations that strip or rewrite references; false
for inserts and row deletions. -/
def RemoteOp.isUpdate : RemoteOp → Bool
  | .updateChoreCompleted _ _ => true
  | .updateChoreAssignees _ _ => true
  | .updateChoreCategory _ _ => true
  | .clearCategoryOfChores _ => true
  | .updateCategoryAssignees _ _ => true
  | _ => false

/-- Outcome of a handler: the component state after every enqueued update
has been applied, and the remote operations issued, in order. -/
structure HandlerResult where
  state : AppState
  ops : List RemoteOp
deriving Repr, DecidableEq

/-- `handleAddChore`: validate non-empty title, clear the error, insert
remotely; append the returned row to the store on success, set the error
banner on failure (the store is only modified on success). -/
def handleAddChore (s : AppState) (newChoreTitle : String)
    (newChoreCategoryId : Option String) (res : Except String ChoreDB) :
    HandlerResult :=
  if newChoreTitle.jsTrim = "" then ⟨s, []⟩
  else
    let op := RemoteOp.insertChore newChoreTitle.jsTrim false []
      (jsOrNull newChoreCategoryId) s.householdId
    match res with
    | .ok data =>
        ⟨{ s with chores := s.chores ++ [choreFromDB data], error := none },
          [op]⟩
    | .error msg =>
        ⟨{ s with error := some (orDefault msg "Failed to add chore. Please try again.") },
          [op]⟩

/-- `handleAddChoreInCategory`: like `handleAddChore` but the category is
fixed by the section the user typed in. -/
def handleAddChoreInCategory (s : AppState) (title : String)
    (categoryId : String) (res : Except String ChoreDB) : HandlerResult :=
  if title.jsTrim = "" then ⟨s, []⟩
  else
    let op := RemoteOp.insertChore title.jsTrim false [] (some categoryId)
      s.householdId
    match res with
    | .ok data =>
        ⟨{ s with chores := s.chores ++ [choreFromDB data], error := none },
          [op]⟩
    | .error msg =>
        ⟨{ s with error := some (orDefault msg "Failed to add chore. Please try again.") },
          [op]⟩

/-- `handleAddAssignee`: validate non-empty and case-insensitively unique
name before any remote call; insert remotely and append the returned row
on success. -/
def handleAddAssignee (s : AppState) (newAssigneeName : String)
    (res : Except String Assignee) : HandlerResult :=
  if newAssigneeName.jsTrim = "" then ⟨s, []⟩
  else if s.assignees.any
      (fun a => a.name.jsToLower == newAssigneeName.jsTrim.jsToLower) then
    ⟨{ s with error := some "An assignee with this name already exists." },
      []⟩
  else
    let op := RemoteOp.insertAssignee newAssigneeName.jsTrim s.householdId
    match res with
    | .ok data =>
        ⟨{ s with assignees := s.assignees ++ [data], error := none }, [op]⟩
    | .error msg =>
        ⟨{ s with error := some (orDefault msg "Failed to add assignee. Please try again.") },
          [op]⟩

/-- `handleQuickAddAssignee`: same local validation as `handleAddAssignee`;
on insert success the new assignee is appended to the store, then the
chore (when found) is updated remotely to also carry the new id; a failure
of that second call leaves the appended assignee in place. -/
def handleQuickAddAssignee (s : AppState) (choreId : String)
    (newAssigneeNameInChore : String) (insRes : Except String Assignee)
    (updRes : Except String Unit) : HandlerResult :=
  if newAssigneeNameInChore.jsTrim = "" then ⟨s, []⟩
  else if s.assignees.any
      (fun a => a.name.jsToLower == newAssigneeNameInChore.jsTrim.jsToLower) then
    ⟨{ s with error := some "An assignee with this name already exists." },
      []⟩
  else
    let op1 := RemoteOp.insertAssignee newAssigneeNameInChore.jsTrim
      s.householdId
    match insRes with
    | .error msg =>
        ⟨{ s with error := some (orDefault msg "Failed to add assignee. Please try again.") },
          [op1]⟩
    | .ok newAssignee =>
        let s1 := { s with assignees := s.assignees ++ [newAssignee],
                           error := none }
        match s.chores.find? (fun c => c.id == choreId) with
        | none => ⟨s1, [op1]⟩
        | some chore =>
            let newAssigneeIds := chore.assigneeIds ++ [newAssignee.id]
            let op2 := RemoteOp.updateChoreAssignees choreId newAssigneeIds
            match updRes with
            | .error msg =>
                ⟨{ s1 with error := some (orDefault msg "Failed to add assignee. Please try again.") },
                  [op1, op2]⟩
            | .ok _ =>
                ⟨{ s1 with chores := s.chores.map (fun c => if c.id == choreId then { c with assigneeIds := newAssigneeIds } else c) },
                  [op1, op2]⟩

/-- `handleAddCategory`: validate non-empty name, insert remotely, append
the translated returned row with isOpen = true on success. -/
def handleAddCategory (s : AppState) (newCategoryName : String)
    (res : Except String CategoryDB) : HandlerResult :=
  if newCategoryName.jsTrim = "" then ⟨s, []⟩
  else
    let op := RemoteOp.insertCategory newCategoryName.jsTrim [] s.householdId
    match res with
    | .ok data =>
        ⟨{ s with categories := s.categories ++ [categoryFromDB data], error := none }, [op]⟩
    | .error msg =>
        ⟨{ s with error := some (orDefault msg "Failed to add category. Please try again.") },
          [op]⟩

/-- `handleToggleChore`: optimistically flip the completed flag of every
chore with the given id, issue one remote update carrying the negation of
the found chore, and on failure map the entry snapshot back to the found
completed value and set the error banner. -/
def handleToggleChore (s : AppState) (choreId : String)
    (res : Except String Unit) : HandlerResult :=
  match s.chores.find? (fun c => c.id == choreId) with
  | none => ⟨s, []⟩
  | some chore =>
      let op := RemoteOp.updateChoreCompleted choreId (!chore.completed)
      match res with
      | .ok _ =>
          ⟨{ s with chores := s.chores.map (fun c =>
              if c.id == choreId then { c with completed := !c.completed }
              else c) }, [op]⟩
      | .error msg =>
          ⟨{ s with
              chores := s.chores.map (fun c =>
                if c.id == choreId then
                  { c with completed := chore.completed } else c),
              error := some (orDefault msg "Failed to update chore. Please try again.") },
            [op]⟩

/-- The assignee-list toggle used by chores and categories: remove the id
when present, append it otherwise. -/
def toggledIds (ids : List String) (assigneeId : String) : List String :=
  if ids.contains assigneeId then ids.filter (fun i => !(i == assigneeId))
  else ids ++ [assigneeId]

/-- `handleToggleAssignee`: optimistically replace the assignee list of
the chore with the toggled list, issue one remote update, and on failure
restore the entry list and set the error banner. -/
def handleToggleAssignee (s : AppState) (choreId assigneeId : String)
    (res : Except String Unit) : HandlerResult :=
  match s.chores.find? (fun c => c.id == choreId) with
  | none => ⟨s, []⟩
  | some chore =>
      let newAssigneeIds := toggledIds chore.assigneeIds assigneeId
      let op := RemoteOp.updateChoreAssignees choreId newAssigneeIds
      match res with
      | .ok _ =>
          ⟨{ s with chores := s.chores.map (fun c =>
              if c.id == choreId then
                { c with assigneeIds := newAssigneeIds } else c) }, [op]⟩
      | .error msg =>
          ⟨{ s with
              chores := s.chores.map (fun c =>
                if c.id == choreId then
                  { c with assigneeIds := chore.assigneeIds } else c),
              error := some (orDefault msg "Failed to update assignees. Please try again.") },
            [op]⟩

/-- `handleToggleCategoryAssignee`: the same toggle on the default
assignee list of a category. -/
def handleToggleCategoryAssignee (s : AppState)
    (categoryId assigneeId : String) (res : Except String Unit) :
    HandlerResult :=
  match s.categories.find? (fun c => c.id == categoryId) with
  | none => ⟨s, []⟩
  | some category =>
      let newAssigneeIds := toggledIds category.assigneeIds assigneeId
      let op := RemoteOp.updateCategoryAssignees categoryId newAssigneeIds
      match res with
      | .ok _ =>
          ⟨{ s with categories := s.categories.map (fun cat =>
              if cat.id == categoryId then
                { cat with assigneeIds := newAssigneeIds } else cat) },
            [op]⟩
      | .error msg =>
          ⟨{ s with
              categories := s.categories.map (fun cat =>
                if cat.id == categoryId then
                  { cat with assigneeIds := category.assigneeIds } else cat),
              error := some (orDefault msg "Failed to update assignees. Please try again.") },
            [op]⟩

/-- `handleDeleteChore`: after confirmation, optimistically drop the chore
and issue one remote delete; a failure sets the error banner only, the
optimistic removal is not reverted. -/
def handleDeleteChore (s : AppState) (choreId : String) (confirmed : Bool)
    (res : Except String Unit) : HandlerResult :=
  if !confirmed then ⟨s, []⟩
  else
    let s1 := { s with
      chores := s.chores.filter (fun c => !(c.id == choreId)) }
    let op := RemoteOp.deleteChoreRow choreId
    match res with
    | .ok _ => ⟨s1, [op]⟩
    | .error msg =>
        ⟨{ s1 with error := some (orDefault msg "Failed to delete chore. Please refresh the page.") },
          [op]⟩

/-- `handleDeleteCategory`: after confirmation, optimistically drop the
category and null out the categoryId of its chores, then issue a bulk
chore update followed, only if that succeeded, by the category delete; a
failure of either call sets the error banner without reverting. -/
def handleDeleteCategory (s : AppState) (categoryId : String)
    (confirmed : Bool) (updRes delRes : Except String Unit) :
    HandlerResult :=
  match s.categories.find? (fun c => c.id == categoryId) with
  | none => ⟨s, []⟩
  | some _ =>
      if !confirmed then ⟨s, []⟩
      else
        let s1 := { s with
          categories := s.categories.filter (fun c => !(c.id == categoryId)),
          chores := s.chores.map (fun chore =>
            if chore.categoryId == some categoryId then
              { chore with categoryId := none } else chore) }
        let op1 := RemoteOp.clearCategoryOfChores categoryId
        match updRes with
        | .error msg =>
            ⟨{ s1 with error := some (orDefault msg "Failed to delete category. Please refresh the page.") },
              [op1]⟩
        | .ok _ =>
            let op2 := RemoteOp.deleteCategoryRow categoryId
            match delRes with
            | .error msg =>
                ⟨{ s1 with error := some (orDefault msg "Failed to delete category. Please refresh the page.") },
                  [op1, op2]⟩
            | .ok _ => ⟨s1, [op1, op2]⟩

/-- `handleMoveChoreToCategory`: optimistically rewrite the categoryId of
the chore and issue one remote update; a failure sets the error banner
only. -/
def handleMoveChoreToCategory (s : AppState) (choreId : String)
    (categoryId : Option String) (res : Except String Unit) :
    HandlerResult :=
  let s1 := { s with chores := s.chores.map (fun chore =>
    if chore.id == choreId then { chore with categoryId := categoryId }
    else chore) }
  let op := RemoteOp.updateChoreCategory choreId categoryId
  match res with
  | .ok _ => ⟨s1, [op]⟩
  | .error msg =>
      ⟨{ s1 with error := some (orDefault msg "Failed to move chore. Please refresh the page.") },
        [op]⟩

/-- `handleDeleteAssignee`: after confirmation, optimistically strip the
id from every chore and category list and drop the assignee; remotely,
one update per chore that listed the id and one per category, in that
order, followed by the assignee row delete.  The loop updates are awaited
without inspecting their error field, so only the final delete outcome is
checked; its failure sets the error banner without reverting. -/
def handleDeleteAssignee (s : AppState) (assigneeId : String)
    (confirmed : Bool) (delRes : Except String Unit) : HandlerResult :=
  match s.assignees.find? (fun a => a.id == assigneeId) with
  | none => ⟨s, []⟩
  | some _ =>
      if !confirmed then ⟨s, []⟩
      else
        let choresUsingAssignee := s.chores.filter
          (fun chore => chore.assigneeIds.contains assigneeId)
        let categoriesUsingAssignee := s.categories.filter
          (fun cat => cat.assigneeIds.contains assigneeId)
        let s1 := { s with
          chores := s.chores.map (fun chore =>
            { chore with assigneeIds :=
                chore.assigneeIds.filter (fun i => !(i == assigneeId)) }),
          categories := s.categories.map (fun cat =>
            { cat with assigneeIds :=
                cat.assigneeIds.filter (fun i => !(i == assigneeId)) }),
          assignees := s.assignees.filter (fun a => !(a.id == assigneeId)) }
        let ops :=
          choresUsingAssignee.map (fun chore =>
            RemoteOp.updateChoreAssignees chore.id
              (chore.assigneeIds.filter (fun i => !(i == assigneeId)))) ++
          categoriesUsingAssignee.map (fun cat =>
            RemoteOp.updateCategoryAssignees cat.id
              (cat.assigneeIds.filter (fun i => !(i == assigneeId)))) ++
          [RemoteOp.deleteAssigneeRow assigneeId]
        match delRes with
        | .ok _ => ⟨s1, ops⟩
        | .error msg =>
            ⟨{ s1 with error := some (orDefault msg "Failed to delete assignee. Please refresh the page.") },
              ops⟩

/-- The error banner holds a non-empty message. -/
def hasError (s : AppState) : Bool :=
  match s.error with
  | some m => m ≠ ""
  | none => false

/-- The three entity collections of two states coincide (the error banner
and household scope are not compared). -/
def collectionsEq (t s : AppState) : Prop :=
  t.assignees = s.assignees ∧ t.categories = s.categories ∧
    t.chores = s.chores

/-- A profile row created by the join flow.  The id is server-assigned and
opaque; per the persistence-adapter contract an insert returns the stored
record with a fresh server-assigned id, modelled here as a counter kept in
the remote database state. -/
structure Profile where
  id : Nat
  name : String
  household_id : String
deriving Repr, DecidableEq

/-- The remote collections touched by the join flow: household rows, whose
primary key is the normalized code itself (`insert({ id: normalizedCode })`),
and profile rows, plus the fresh-id counter of the server. -/
structure AuthDB where
  households : List String
  profiles : List Profile
  nextProfileId : Nat
deriving Repr, DecidableEq

/-- The values handed to `onLogin` and persisted in localStorage on a
successful join. -/
structure JoinSession where
  userId : Nat
  userName : String
  householdId : String
deriving Repr, DecidableEq

/-- Success path of `handleJoinHousehold` in LoginScreen: validate both
inputs non-empty, normalize the code (trim and uppercase), create the
household row only when no row with that id exists, then unconditionally
insert a new profile row and return the session triple.  `none` models the
early validation returns; remote failures abort before any state is
returned and are not needed by the claims. -/
def handleJoinHousehold (db : AuthDB) (name householdCode : String) :
    Option (AuthDB × JoinSession) :=
  if name.jsTrim = "" then none
  else if householdCode.jsTrim = "" then none
  else
    let normalizedCode := householdCode.jsTrim.jsToUpper
    let db1 := if db.households.contains normalizedCode then db
      else { db with households := db.households ++ [normalizedCode] }
    let profile : Profile := { id := db1.nextProfileId, name := name.jsTrim, household_id := normalizedCode }
    some ({ db1 with profiles := db1.profiles ++ [profile], nextProfileId := db1.nextProfileId + 1 },
      { userId := profile.id, userName := name.jsTrim, householdId := normalizedCode })

/-- Sample assignee used by the witnesses. -/
def alexA : Assignee := { id := "a1", name := "Alex", household_id := "H1" }

/-- Sample assignee used by the witnesses. -/
def samA : Assignee := { id := "a2", name := "Sam", household_id := "H1" }

/-- Sample category used by the witnesses. -/
def kitchenC : Category :=
  { id := "g1", name := "Kitchen", isOpen := true, assigneeIds := ["a1"],
    household_id := "H1" }

/-- Sample chore used by the witnesses. -/
def mopChore : Chore :=
  { id := "c1", title := "Mop floor", completed := false,
    assigneeIds := ["a2"], categoryId := some "g1", household_id := "H1" }

/-- Sample chore used by the witnesses. -/
def dishesChore : Chore :=
  { id := "c2", title := "Wash dishes", completed := false,
    assigneeIds := [], categoryId := none, household_id := "H1" }

/-- Sample component state used by the witnesses. -/
def sampleState : AppState :=
  { assignees := [alexA, samA], categories := [kitchenC],
    chores := [mopChore, dishesChore], error := none, householdId := "H1" }
/-- C2: a chore with a non-empty direct assignee list resolves to exactly
that list with isInherited = false, for every category collection and
every categoryId value. -/
theorem C2_direct_assignees_win (categories : List Category) (chore : Chore)
    (h : chore.assigneeIds ≠ []) :
    getEffectiveAssignees categories chore =
      { assigneeIds := chore.assigneeIds, isInherited := false } := by
  unfold getEffectiveAssignees
  have hlen : chore.assigneeIds.length > 0 := List.length_pos.mpr h
  simp [hlen]

/-- Witness for C2 at a concrete chore and category collection. -/
theorem C2_direct_assignees_win_witness :
    getEffectiveAssignees
      [{ id := "cat1", name := "Kitchen", isOpen := true,
         assigneeIds := ["alex"], household_id := "H" }]
      { id := "c1", title := "Mop", completed := false,
        assigneeIds := ["sam"], categoryId := some "cat1",
        household_id := "H" } =
      { assigneeIds := ["sam"], isInherited := false } :=
  C2_direct_assignees_win _ _ (by decide)

/-- C3 counterexample: a chore whose categoryId is the empty string, with
a category of id the empty string and non-empty defaults present in the
collection.  The lookup premise of the claim holds, yet the resolver
returns no assignees and isInherited = false, because the code treats an
empty-string categoryId as falsy and never performs the lookup. -/
theorem C3_counterexample :
    let kitchen : Category :=
      { id := "", name := "Kitchen", isOpen := true,
        assigneeIds := ["alex"], household_id := "H" }
    let chore : Chore :=
      { id := "c1", title := "Mop", completed := false,
        assigneeIds := [], categoryId := some "",
        household_id := "H" }
    [kitchen].find? (fun cat => some cat.id == chore.categoryId) =
        some kitchen ∧
      kitchen.assigneeIds ≠ [] ∧
      chore.assigneeIds = [] ∧
      getEffectiveAssignees [kitchen] chore =
        { assigneeIds := [], isInherited := false } ∧
      getEffectiveAssignees [kitchen] chore ≠
        { assigneeIds := kitchen.assigneeIds, isInherited := true } := by
  refine ⟨rfl, by decide, rfl, rfl, by decide⟩

/-- C3 amended: for a chore with an empty direct list whose categoryId is
a non-empty string resolving to a category with non-empty defaults, the
resolver returns the defaults of that category with isInherited = true. -/
theorem C3_inherited_from_category (categories : List Category)
    (chore : Chore) (cid : String) (cat : Category)
    (hdirect : chore.assigneeIds = [])
    (hcid : chore.categoryId = some cid)
    (hne : cid ≠ "")
    (hfind : categories.find? (fun c => c.id == cid) = some cat)
    (hdef : cat.assigneeIds ≠ []) :
    getEffectiveAssignees categories chore =
      { assigneeIds := cat.assigneeIds, isInherited := true } := by
  unfold getEffectiveAssignees
  have hlen : cat.assigneeIds.length > 0 := List.length_pos.mpr hdef
  simp [hdirect, hcid, strTruthy, hne, hfind, hlen]

/-- Witness for the amended C3 at a concrete chore and category. -/
theorem C3_inherited_from_category_witness :
    getEffectiveAssignees
      [{ id := "cat1", name := "Kitchen", isOpen := true,
         assigneeIds := ["alex"], household_id := "H" }]
      { id := "c1", title := "Mop", completed := false,
        assigneeIds := [], categoryId := some "cat1",
        household_id := "H" } =
      { assigneeIds := ["alex"], isInherited := true } :=
  C3_inherited_from_category _ _ "cat1"
    { id := "cat1", name := "Kitchen", isOpen := true,
      assigneeIds := ["alex"], household_id := "H" }
    rfl rfl (by decide) (by decide) (by decide)

/-- C4: with an empty direct list, an absent categoryId, a dangling
categoryId, or a category with empty defaults all resolve to no assignees
with isInherited = false; a dangling reference is not an error. -/
theorem C4_empty_resolution (categories : List Category) (chore : Chore)
    (hdirect : chore.assigneeIds = [])
    (hcases : chore.categoryId = none ∨
      (∃ cid, chore.categoryId = some cid ∧
        categories.find? (fun c => c.id == cid) = none) ∨
      (∃ cid cat, chore.categoryId = some cid ∧
        categories.find? (fun c => c.id == cid) = some cat ∧
        cat.assigneeIds = [])) :
    getEffectiveAssignees categories chore =
      { assigneeIds := [], isInherited := false } := by
  unfold getEffectiveAssignees
  rcases hcases with hnone | ⟨cid, hcid, hfind⟩ | ⟨cid, cat, hcid, hfind, hdef⟩
  · simp [hdirect, hnone, strTruthy]
  · by_cases hne : cid = ""
    · simp [hdirect, hcid, hne, strTruthy]
    · simp [hdirect, hcid, hne, strTruthy, hfind]
  · by_cases hne : cid = ""
    · simp [hdirect, hcid, hne, strTruthy]
    · simp [hdirect, hcid, hne, strTruthy, hfind, hdef]

/-- Witness for C4 at a concrete dangling categoryId. -/
theorem C4_empty_resolution_witness :
    getEffectiveAssignees
      [{ id := "cat1", name := "Kitchen", isOpen := true,
         assigneeIds := ["alex"], household_id := "H" }]
      { id := "c1", title := "Mop", completed := false,
        assigneeIds := [], categoryId := some "ghost",
        household_id := "H" } =
      { assigneeIds := [], isInherited := false } :=
  C4_empty_resolution _ _ rfl
    (Or.inr (Or.inl ⟨"ghost", rfl, by decide⟩))


/-- A map whose function fixes every element satisfying the guard is the
identity map. -/
theorem map_if_eq_self {α : Type} (l : List α) (p : α → Bool) (f : α → α)
    (h : ∀ c ∈ l, p c = true → f c = c) :
    l.map (fun c => if p c then f c else c) = l := by
  induction l with
  | nil => rfl
  | cons a t ih =>
      simp only [List.map_cons]
      have ht : t.map (fun c => if p c then f c else c) = t :=
        ih (fun c hc hp => h c (List.mem_cons_of_mem a hc) hp)
      rw [ht]
      by_cases hp : p a = true
      · rw [if_pos hp, h a (List.mem_cons_self a t) hp]
      · rw [if_neg hp]

/-- A list is pointwise related to its image under a map. -/
theorem forall₂_map_self {α : Type} (R : α → α → Prop) (l : List α)
    (f : α → α) (h : ∀ a ∈ l, R a (f a)) : List.Forall₂ R l (l.map f) := by
  induction l with
  | nil => exact List.Forall₂.nil
  | cons a t ih =>
      exact List.Forall₂.cons (h a (List.mem_cons_self a t))
        (ih fun b hb => h b (List.mem_cons_of_mem a hb))

/-- C9: when the remote update succeeds, toggling a chore changes only the
completed flag of the chore with the given id, negating it; the title,
assignee list, category and household of that chore, every other chore,
the assignee and category collections, and the error banner are unchanged,
and exactly one remote call is issued, the completed-flag update. -/
theorem C9_toggle_chore_frame (s : AppState) (choreId : String)
    (chore : Chore)
    (hfind : s.chores.find? (fun c => c.id == choreId) = some chore) :
    (handleToggleChore s choreId (Except.ok ())).state.assignees =
        s.assignees ∧
    (handleToggleChore s choreId (Except.ok ())).state.categories =
        s.categories ∧
    (handleToggleChore s choreId (Except.ok ())).state.error = s.error ∧
    (handleToggleChore s choreId (Except.ok ())).state.householdId =
        s.householdId ∧
    List.Forall₂ (fun c c2 =>
        c2.id = c.id ∧ c2.title = c.title ∧
        c2.assigneeIds = c.assigneeIds ∧ c2.categoryId = c.categoryId ∧
        c2.household_id = c.household_id ∧
        c2.completed = (if c.id = choreId then !c.completed else c.completed))
      s.chores (handleToggleChore s choreId (Except.ok ())).state.chores ∧
    (handleToggleChore s choreId (Except.ok ())).ops =
      [RemoteOp.updateChoreCompleted choreId (!chore.completed)] := by
  simp only [handleToggleChore, hfind]
  refine ⟨trivial, trivial, trivial, trivial, ?_, trivial⟩
  refine forall₂_map_self _ _ _ ?_
  intro c _
  by_cases hc : c.id == choreId
  · have hceq : c.id = choreId := by simpa using hc
    simp [hc, hceq]
  · have hcne : ¬c.id = choreId := by simpa using hc
    simp [hc, hcne]

/-- Witness for C9 on the sample state. -/
theorem C9_toggle_chore_frame_witness :
    (handleToggleChore sampleState "c1" (Except.ok ())).state.assignees =
        sampleState.assignees ∧
    (handleToggleChore sampleState "c1" (Except.ok ())).state.categories =
        sampleState.categories ∧
    (handleToggleChore sampleState "c1" (Except.ok ())).state.error =
        sampleState.error ∧
    (handleToggleChore sampleState "c1" (Except.ok ())).state.householdId =
        sampleState.householdId ∧
    List.Forall₂ (fun c c2 =>
        c2.id = c.id ∧ c2.title = c.title ∧
        c2.assigneeIds = c.assigneeIds ∧ c2.categoryId = c.categoryId ∧
        c2.household_id = c.household_id ∧
        c2.completed = (if c.id = "c1" then !c.completed else c.completed))
      sampleState.chores
      (handleToggleChore sampleState "c1" (Except.ok ())).state.chores ∧
    (handleToggleChore sampleState "c1" (Except.ok ())).ops =
      [RemoteOp.updateChoreCompleted "c1" (!mopChore.completed)] :=
  C9_toggle_chore_frame sampleState "c1" mopChore (by decide)

/-- C5: when the confirmation is accepted and both remote steps succeed,
deleting a category removes every category with that id from the category
collection while keeping only categories that were already present, and
rewrites the chore collection elementwise: each chore keeps its id, title,
completed flag, assignee list and household, and its categoryId is set to
none exactly when it referenced the deleted category. -/
theorem C5_delete_category (s : AppState) (categoryId : String)
    (cat : Category)
    (hfind : s.categories.find? (fun c => c.id == categoryId) = some cat) :
    (∀ g ∈ (handleDeleteCategory s categoryId true (Except.ok ())
        (Except.ok ())).state.categories, g.id ≠ categoryId) ∧
    (∀ g ∈ s.categories, g.id ≠ categoryId →
      g ∈ (handleDeleteCategory s categoryId true (Except.ok ())
        (Except.ok ())).state.categories) ∧
    (∀ g ∈ (handleDeleteCategory s categoryId true (Except.ok ())
        (Except.ok ())).state.categories, g ∈ s.categories) ∧
    List.Forall₂ (fun ch ch2 =>
        ch2.id = ch.id ∧ ch2.title = ch.title ∧
        ch2.completed = ch.completed ∧
        ch2.assigneeIds = ch.assigneeIds ∧
        ch2.household_id = ch.household_id ∧
        ch2.categoryId =
          (if ch.categoryId = some categoryId then none else ch.categoryId))
      s.chores
      (handleDeleteCategory s categoryId true (Except.ok ())
        (Except.ok ())).state.chores := by
  simp only [handleDeleteCategory, hfind, Bool.not_true, Bool.false_eq_true,
    if_false]
  refine ⟨?_, ?_, ?_, ?_⟩
  · intro g hg
    have := List.of_mem_filter hg
    simpa using this
  · intro g hg hne
    refine List.mem_filter.mpr ⟨hg, ?_⟩
    simpa using hne
  · intro g hg
    exact List.mem_of_mem_filter hg
  · refine forall₂_map_self _ _ _ ?_
    intro ch _
    by_cases hc : ch.categoryId == some categoryId
    · have hceq : ch.categoryId = some categoryId := by simpa using hc
      simp [hc, hceq]
    · have hcne : ¬ch.categoryId = some categoryId := by simpa using hc
      simp [hc, hcne]

/-- Witness for C5 on the sample state. -/
theorem C5_delete_category_witness :
    (∀ g ∈ (handleDeleteCategory sampleState "g1" true (Except.ok ())
        (Except.ok ())).state.categories, g.id ≠ "g1") ∧
    (∀ g ∈ sampleState.categories, g.id ≠ "g1" →
      g ∈ (handleDeleteCategory sampleState "g1" true (Except.ok ())
        (Except.ok ())).state.categories) ∧
    (∀ g ∈ (handleDeleteCategory sampleState "g1" true (Except.ok ())
        (Except.ok ())).state.categories, g ∈ sampleState.categories) ∧
    List.Forall₂ (fun ch ch2 =>
        ch2.id = ch.id ∧ ch2.title = ch.title ∧
        ch2.completed = ch.completed ∧
        ch2.assigneeIds = ch.assigneeIds ∧
        ch2.household_id = ch.household_id ∧
        ch2.categoryId =
          (if ch.categoryId = some "g1" then none else ch.categoryId))
      sampleState.chores
      (handleDeleteCategory sampleState "g1" true (Except.ok ())
        (Except.ok ())).state.chores :=
  C5_delete_category sampleState "g1" kitchenC (by decide)

/-- C6: when the confirmation is accepted and every remote step succeeds,
deleting an assignee leaves no chore and no category listing that id,
removes the assignee from the assignee collection, and issues the
reference-stripping updates strictly before the assignee row delete: the
delete is the last operation and everything before it is an update. -/
theorem C6_delete_assignee (s : AppState) (assigneeId : String)
    (asg : Assignee)
    (hfind : s.assignees.find? (fun a => a.id == assigneeId) = some asg) :
    (∀ ch ∈ (handleDeleteAssignee s assigneeId true
        (Except.ok ())).state.chores, assigneeId ∉ ch.assigneeIds) ∧
    (∀ g ∈ (handleDeleteAssignee s assigneeId true
        (Except.ok ())).state.categories, assigneeId ∉ g.assigneeIds) ∧
    (∀ a ∈ (handleDeleteAssignee s assigneeId true
        (Except.ok ())).state.assignees, a.id ≠ assigneeId) ∧
    (handleDeleteAssignee s assigneeId true (Except.ok ())).ops.getLast? =
      some (RemoteOp.deleteAssigneeRow assigneeId) ∧
    (∀ op ∈ (handleDeleteAssignee s assigneeId true
        (Except.ok ())).ops.dropLast, op.isUpdate = true) := by
  simp only [handleDeleteAssignee, hfind, Bool.not_true, Bool.false_eq_true,
    if_false]
  refine ⟨?_, ?_, ?_, ?_, ?_⟩
  · intro ch hch
    rcases List.mem_map.mp hch with ⟨ch0, _, rfl⟩
    intro hmem
    have := List.of_mem_filter hmem
    simp at this
  · intro g hg
    rcases List.mem_map.mp hg with ⟨g0, _, rfl⟩
    intro hmem
    have := List.of_mem_filter hmem
    simp at this
  · intro a ha
    have := List.of_mem_filter ha
    simpa using this
  · rw [List.getLast?_concat]
  · intro op hop
    rw [List.dropLast_concat] at hop
    rcases List.mem_append.mp hop with h | h
    · rcases List.mem_map.mp h with ⟨ch0, _, rfl⟩
      rfl
    · rcases List.mem_map.mp h with ⟨g0, _, rfl⟩
      rfl

/-- Witness for C6 on the sample state. -/
theorem C6_delete_assignee_witness :
    (∀ ch ∈ (handleDeleteAssignee sampleState "a1" true
        (Except.ok ())).state.chores, "a1" ∉ ch.assigneeIds) ∧
    (∀ g ∈ (handleDeleteAssignee sampleState "a1" true
        (Except.ok ())).state.categories, "a1" ∉ g.assigneeIds) ∧
    (∀ a ∈ (handleDeleteAssignee sampleState "a1" true
        (Except.ok ())).state.assignees, a.id ≠ "a1") ∧
    (handleDeleteAssignee sampleState "a1" true (Except.ok ())).ops.getLast? =
      some (RemoteOp.deleteAssigneeRow "a1") ∧
    (∀ op ∈ (handleDeleteAssignee sampleState "a1" true
        (Except.ok ())).ops.dropLast, op.isUpdate = true) :=
  C6_delete_assignee sampleState "a1" alexA (by decide)

/-- find? commutes with a map whose function preserves the predicate. -/
theorem find?_map_pres {α : Type} (l : List α) (p : α → Bool) (f : α → α)
    (hf : ∀ a, p (f a) = p a) :
    (l.map f).find? p = (l.find? p).map f := by
  induction l with
  | nil => rfl
  | cons a t ih =>
      simp only [List.map_cons, List.find?]
      rw [hf a]
      cases hpa : p a
      · simpa using ih
      · rfl

/-- Toggling an id twice in an assignee list preserves membership. -/
theorem mem_toggle_toggle (ids : List String) (assigneeId x : String) :
    (x ∈ toggledIds (toggledIds ids assigneeId) assigneeId) ↔ x ∈ ids := by
  by_cases hmem : assigneeId ∈ ids
  · have h1 : toggledIds ids assigneeId =
        ids.filter (fun i => !(i == assigneeId)) := by
      simp [toggledIds, hmem]
    have hnm : assigneeId ∉ ids.filter (fun i => !(i == assigneeId)) := by
      simp [List.mem_filter]
    have h2 : toggledIds (toggledIds ids assigneeId) assigneeId =
        ids.filter (fun i => !(i == assigneeId)) ++ [assigneeId] := by
      rw [h1]; simp [toggledIds, hnm]
    rw [h2]
    simp only [List.mem_append, List.mem_filter, List.mem_singleton]
    constructor
    · rintro (⟨hx, _⟩ | rfl)
      · exact hx
      · exact hmem
    · intro hx
      by_cases hxa : x = assigneeId
      · exact Or.inr hxa
      · exact Or.inl ⟨hx, by simpa using hxa⟩
  · have h1 : toggledIds ids assigneeId = ids ++ [assigneeId] := by
      simp [toggledIds, hmem]
    have hm2 : assigneeId ∈ ids ++ [assigneeId] := by simp
    have h2 : toggledIds (toggledIds ids assigneeId) assigneeId =
        (ids ++ [assigneeId]).filter (fun i => !(i == assigneeId)) := by
      rw [h1]; simp [toggledIds, hm2]
    rw [h2]
    simp only [List.filter_append, List.mem_append, List.mem_filter]
    constructor
    · rintro (⟨hx, _⟩ | hx)
      · exact hx
      · simp at hx
    · intro hx
      refine Or.inl ⟨hx, ?_⟩
      have : ¬x = assigneeId := fun h => hmem (h ▸ hx)
      simpa using this

/-- A successful assignee toggle rewrites the found chore by toggling its
assignee list, and the rewritten chore is what a fresh lookup finds. -/
theorem toggleAssignee_ok_find (s : AppState)
    (choreId assigneeId : String) (chore : Chore)
    (hfind : s.chores.find? (fun c => c.id == choreId) = some chore) :
    (handleToggleAssignee s choreId assigneeId
        (Except.ok ())).state.chores.find? (fun c => c.id == choreId) =
      some { chore with
        assigneeIds := toggledIds chore.assigneeIds assigneeId } := by
  have hp := List.find?_some hfind
  have hq : chore.id = choreId := by simpa using hp
  simp only [handleToggleAssignee, hfind]
  rw [find?_map_pres]
  · rw [hfind]
    simp [hq]
  · intro a
    by_cases h : a.id == choreId <;> simp [h]

/-- A successful category-assignee toggle rewrites the found category by
toggling its default list, and the rewritten category is what a fresh
lookup finds. -/
theorem toggleCategoryAssignee_ok_find (s : AppState)
    (categoryId assigneeId : String) (category : Category)
    (hfind : s.categories.find? (fun c => c.id == categoryId) =
      some category) :
    (handleToggleCategoryAssignee s categoryId assigneeId
        (Except.ok ())).state.categories.find?
        (fun c => c.id == categoryId) =
      some { category with
        assigneeIds := toggledIds category.assigneeIds assigneeId } := by
  have hp := List.find?_some hfind
  have hq : category.id = categoryId := by simpa using hp
  simp only [handleToggleCategoryAssignee, hfind]
  rw [find?_map_pres]
  · rw [hfind]
    simp [hq]
  · intro a
    by_cases h : a.id == categoryId <;> simp [h]

/-- C10: toggling the same assignee on the same chore twice in succession,
both remote updates succeeding with no intervening mutation, restores the
membership of the assignee list of that chore (the list may be reordered:
a removed id is re-appended at the end); the same round trip holds for the
default assignee list of a category. -/
theorem C10_toggle_roundtrip (s : AppState)
    (choreId categoryId assigneeId : String) (chore : Chore)
    (category : Category)
    (hchore : s.chores.find? (fun c => c.id == choreId) = some chore)
    (hcat : s.categories.find? (fun c => c.id == categoryId) =
      some category) :
    (∃ chore2,
      (handleToggleAssignee
          (handleToggleAssignee s choreId assigneeId (Except.ok ())).state
          choreId assigneeId (Except.ok ())).state.chores.find?
          (fun c => c.id == choreId) = some chore2 ∧
        ∀ x, x ∈ chore2.assigneeIds ↔ x ∈ chore.assigneeIds) ∧
    (∃ category2,
      (handleToggleCategoryAssignee
          (handleToggleCategoryAssignee s categoryId assigneeId
            (Except.ok ())).state
          categoryId assigneeId (Except.ok ())).state.categories.find?
          (fun c => c.id == categoryId) = some category2 ∧
        ∀ x, x ∈ category2.assigneeIds ↔ x ∈ category.assigneeIds) := by
  constructor
  · have h1 := toggleAssignee_ok_find s choreId assigneeId chore hchore
    have h2 := toggleAssignee_ok_find _ choreId assigneeId _ h1
    refine ⟨_, h2, ?_⟩
    intro x
    exact mem_toggle_toggle chore.assigneeIds assigneeId x
  · have h1 := toggleCategoryAssignee_ok_find s categoryId assigneeId
      category hcat
    have h2 := toggleCategoryAssignee_ok_find _ categoryId assigneeId _ h1
    refine ⟨_, h2, ?_⟩
    intro x
    exact mem_toggle_toggle category.assigneeIds assigneeId x

/-- Witness for C10 on the sample state. -/
theorem C10_toggle_roundtrip_witness :
    (∃ chore2,
      (handleToggleAssignee
          (handleToggleAssignee sampleState "c1" "a2" (Except.ok ())).state
          "c1" "a2" (Except.ok ())).state.chores.find?
          (fun c => c.id == "c1") = some chore2 ∧
        ∀ x, x ∈ chore2.assigneeIds ↔ x ∈ mopChore.assigneeIds) ∧
    (∃ category2,
      (handleToggleCategoryAssignee
          (handleToggleCategoryAssignee sampleState "g1" "a2"
            (Except.ok ())).state
          "g1" "a2" (Except.ok ())).state.categories.find?
          (fun c => c.id == "g1") = some category2 ∧
        ∀ x, x ∈ category2.assigneeIds ↔ x ∈ kitchenC.assigneeIds) :=
  C10_toggle_roundtrip sampleState "c1" "g1" "a2" mopChore kitchenC
    (by decide) (by decide)

/-- C7 counterexample: with an assignee whose name is the empty string in
the collection, a whitespace-only input name matches it case-insensitively
after trimming, yet both add handlers return silently at the empty-input
check: the state is unchanged, so no error is reported, although the claim
requires one for every case-insensitive duplicate. -/
theorem C7_counterexample :
    let blank : Assignee := { id := "a0", name := "", household_id := "H1" }
    let s : AppState :=
      { assignees := [blank], categories := [], chores := [],
        error := none, householdId := "H1" }
    (∃ a ∈ s.assignees, a.name.jsToLower = " ".jsTrim.jsToLower) ∧
      (handleAddAssignee s " " (Except.ok blank)).state.error = none ∧
      (handleAddAssignee s " " (Except.ok blank)).ops = [] ∧
      (handleQuickAddAssignee s "c1" " " (Except.ok blank)
        (Except.ok ())).state.error = none ∧
      (handleQuickAddAssignee s "c1" " " (Except.ok blank)
        (Except.ok ())).ops = [] := by
  refine ⟨⟨_, List.mem_cons_self _ _, by decide⟩, ?_, ?_, ?_, ?_⟩ <;> decide

/-- C7 amended: an attempt to add an assignee whose trimmed name matches
an existing name case-insensitively is rejected locally before any remote
call is issued, leaving the assignees, categories and chores collections
unchanged; when the trimmed name is non-empty the duplicate-name error is
reported, while a whitespace-only input is rejected silently with no state
change at all.  Both the standalone add and the quick add from a chore
behave this way. -/
theorem C7_duplicate_rejected_locally (s : AppState)
    (nameIn emptyName choreId : String)
    (res insRes : Except String Assignee) (updRes : Except String Unit)
    (hdup : s.assignees.any
      (fun a => a.name.jsToLower == nameIn.jsTrim.jsToLower) = true)
    (htrim : nameIn.jsTrim ≠ "")
    (hempty : emptyName.jsTrim = "") :
    collectionsEq (handleAddAssignee s nameIn res).state s ∧
    (handleAddAssignee s nameIn res).state.error =
      some "An assignee with this name already exists." ∧
    (handleAddAssignee s nameIn res).ops = [] ∧
    collectionsEq (handleQuickAddAssignee s choreId nameIn insRes
      updRes).state s ∧
    (handleQuickAddAssignee s choreId nameIn insRes updRes).state.error =
      some "An assignee with this name already exists." ∧
    (handleQuickAddAssignee s choreId nameIn insRes updRes).ops = [] ∧
    handleAddAssignee s emptyName res = ⟨s, []⟩ ∧
    handleQuickAddAssignee s choreId emptyName insRes updRes = ⟨s, []⟩ := by
  simp [handleAddAssignee, handleQuickAddAssignee, collectionsEq, hdup,
    htrim, hempty]

/-- Witness for the amended C7 on the sample state. -/
theorem C7_duplicate_rejected_locally_witness :
    collectionsEq (handleAddAssignee sampleState "alex"
      (Except.ok samA)).state sampleState ∧
    (handleAddAssignee sampleState "alex" (Except.ok samA)).state.error =
      some "An assignee with this name already exists." ∧
    (handleAddAssignee sampleState "alex" (Except.ok samA)).ops = [] ∧
    collectionsEq (handleQuickAddAssignee sampleState "c1" "alex"
      (Except.ok samA) (Except.ok ())).state sampleState ∧
    (handleQuickAddAssignee sampleState "c1" "alex" (Except.ok samA)
      (Except.ok ())).state.error =
      some "An assignee with this name already exists." ∧
    (handleQuickAddAssignee sampleState "c1" "alex" (Except.ok samA)
      (Except.ok ())).ops = [] ∧
    handleAddAssignee sampleState " " (Except.ok samA) = ⟨sampleState, []⟩ ∧
    handleQuickAddAssignee sampleState "c1" " " (Except.ok samA)
      (Except.ok ()) = ⟨sampleState, []⟩ :=
  C7_duplicate_rejected_locally sampleState "alex" " " "c1"
    (Except.ok samA) (Except.ok samA) (Except.ok ())
    (by decide) (by decide) (by decide)

/-- C8: a successful join always inserts a new profile row; two successive
successful joins with identical name and code yield two distinct identity
ids; the household row is created only when the normalized code was not
already present, and in particular the second join never creates it. -/
theorem C8_join_always_new_profile (db : AuthDB) (name code : String)
    (hname : name.jsTrim ≠ "") (hcode : code.jsTrim ≠ "") :
    ∃ db1 s1 db2 s2,
      handleJoinHousehold db name code = some (db1, s1) ∧
      handleJoinHousehold db1 name code = some (db2, s2) ∧
      db1.profiles.length = db.profiles.length + 1 ∧
      db2.profiles.length = db1.profiles.length + 1 ∧
      s1.userId ≠ s2.userId ∧
      (code.jsTrim.jsToUpper ∈ db.households →
        db1.households = db.households) ∧
      (code.jsTrim.jsToUpper ∉ db.households →
        db1.households = db.households ++ [code.jsTrim.jsToUpper]) ∧
      db2.households = db1.households := by
  by_cases hm : code.jsTrim.jsToUpper ∈ db.households
  · refine ⟨{ db with
        profiles := db.profiles ++
          [⟨db.nextProfileId, name.jsTrim, code.jsTrim.jsToUpper⟩],
        nextProfileId := db.nextProfileId + 1 },
      ⟨db.nextProfileId, name.jsTrim, code.jsTrim.jsToUpper⟩,
      { db with
        profiles := db.profiles ++
          [⟨db.nextProfileId, name.jsTrim, code.jsTrim.jsToUpper⟩,
           ⟨db.nextProfileId + 1, name.jsTrim, code.jsTrim.jsToUpper⟩],
        nextProfileId := db.nextProfileId + 2 },
      ⟨db.nextProfileId + 1, name.jsTrim, code.jsTrim.jsToUpper⟩,
      ?_, ?_, ?_, ?_, ?_, ?_, ?_, ?_⟩
    · simp [handleJoinHousehold, hname, hcode, hm]
    · simp [handleJoinHousehold, hname, hcode, hm]
    · simp
    · simp
    · exact Nat.ne_of_lt (Nat.lt_succ_self _)
    · intro _; rfl
    · intro hnm; exact absurd hm hnm
    · rfl
  · refine ⟨{ db with
        households := db.households ++ [code.jsTrim.jsToUpper],
        profiles := db.profiles ++
          [⟨db.nextProfileId, name.jsTrim, code.jsTrim.jsToUpper⟩],
        nextProfileId := db.nextProfileId + 1 },
      ⟨db.nextProfileId, name.jsTrim, code.jsTrim.jsToUpper⟩,
      { db with
        households := db.households ++ [code.jsTrim.jsToUpper],
        profiles := db.profiles ++
          [⟨db.nextProfileId, name.jsTrim, code.jsTrim.jsToUpper⟩,
           ⟨db.nextProfileId + 1, name.jsTrim, code.jsTrim.jsToUpper⟩],
        nextProfileId := db.nextProfileId + 2 },
      ⟨db.nextProfileId + 1, name.jsTrim, code.jsTrim.jsToUpper⟩,
      ?_, ?_, ?_, ?_, ?_, ?_, ?_, ?_⟩
    · simp [handleJoinHousehold, hname, hcode, hm]
    · have hm2 : code.jsTrim.jsToUpper ∈
          db.households ++ [code.jsTrim.jsToUpper] := by simp
      simp [handleJoinHousehold, hname, hcode, hm2]
    · simp
    · simp
    · exact Nat.ne_of_lt (Nat.lt_succ_self _)
    · intro hmm; exact absurd hmm hm
    · intro _; rfl
    · rfl

/-- Witness for C8 from an empty remote database. -/
theorem C8_join_always_new_profile_witness :
    ∃ db1 s1 db2 s2,
      handleJoinHousehold ⟨[], [], 0⟩ "Alex" "home-2026" = some (db1, s1) ∧
      handleJoinHousehold db1 "Alex" "home-2026" = some (db2, s2) ∧
      db1.profiles.length = (⟨[], [], 0⟩ : AuthDB).profiles.length + 1 ∧
      db2.profiles.length = db1.profiles.length + 1 ∧
      s1.userId ≠ s2.userId ∧
      ("home-2026".jsTrim.jsToUpper ∈ (⟨[], [], 0⟩ : AuthDB).households →
        db1.households = (⟨[], [], 0⟩ : AuthDB).households) ∧
      ("home-2026".jsTrim.jsToUpper ∉ (⟨[], [], 0⟩ : AuthDB).households →
        db1.households = (⟨[], [], 0⟩ : AuthDB).households ++
          ["home-2026".jsTrim.jsToUpper]) ∧
      db2.households = db1.households :=
  C8_join_always_new_profile ⟨[], [], 0⟩ "Alex" "home-2026"
    (by decide) (by decide)

/-- The fallback of the error setter is never the empty string. -/
theorem orDefault_ne (msg d : String) (hd : d ≠ "") : orDefault msg d ≠ "" := by
  unfold orDefault
  split
  · exact hd
  · assumption

/-- A state whose error field holds a non-empty message satisfies
hasError. -/
theorem hasError_mk (s : AppState) (m : String) (h : s.error = some m)
    (hm : m ≠ "") : hasError s = true := by
  unfold hasError
  rw [h]
  exact decide_eq_true hm

/-- A failed chore insert leaves the collections unchanged and reports an
error. -/
theorem addChore_fail (s : AppState) (t : String) (catOpt : Option String)
    (msg : String) (ht : t.jsTrim ≠ "") :
    collectionsEq (handleAddChore s t catOpt (Except.error msg)).state s ∧
    hasError (handleAddChore s t catOpt (Except.error msg)).state = true := by
  unfold handleAddChore
  rw [if_neg ht]
  exact ⟨⟨rfl, rfl, rfl⟩, hasError_mk _ _ rfl (orDefault_ne _ _ (by decide))⟩

/-- A failed in-category chore insert leaves the collections unchanged and
reports an error. -/
theorem addChoreInCategory_fail (s : AppState) (t catId2 msg : String)
    (ht : t.jsTrim ≠ "") :
    collectionsEq (handleAddChoreInCategory s t catId2
      (Except.error msg)).state s ∧
    hasError (handleAddChoreInCategory s t catId2
      (Except.error msg)).state = true := by
  unfold handleAddChoreInCategory
  rw [if_neg ht]
  exact ⟨⟨rfl, rfl, rfl⟩, hasError_mk _ _ rfl (orDefault_ne _ _ (by decide))⟩

/-- A failed assignee insert leaves the collections unchanged and reports
an error. -/
theorem addAssignee_fail (s : AppState) (nameA msg : String)
    (hn : nameA.jsTrim ≠ "")
    (hdup : s.assignees.any
      (fun a => a.name.jsToLower == nameA.jsTrim.jsToLower) = false) :
    collectionsEq (handleAddAssignee s nameA (Except.error msg)).state s ∧
    hasError (handleAddAssignee s nameA (Except.error msg)).state = true := by
  unfold handleAddAssignee
  rw [if_neg hn, if_neg (by simp [hdup])]
  exact ⟨⟨rfl, rfl, rfl⟩, hasError_mk _ _ rfl (orDefault_ne _ _ (by decide))⟩

/-- A failed category insert leaves the collections unchanged and reports
an error. -/
theorem addCategory_fail (s : AppState) (catName msg : String)
    (hn : catName.jsTrim ≠ "") :
    collectionsEq (handleAddCategory s catName (Except.error msg)).state s ∧
    hasError (handleAddCategory s catName (Except.error msg)).state = true := by
  unfold handleAddCategory
  rw [if_neg hn]
  exact ⟨⟨rfl, rfl, rfl⟩, hasError_mk _ _ rfl (orDefault_ne _ _ (by decide))⟩

/-- A quick add whose assignee insert fails leaves the collections
unchanged and reports an error. -/
theorem quickAdd_insert_fail (s : AppState) (choreId qname msg : String)
    (hn : qname.jsTrim ≠ "")
    (hdup : s.assignees.any
      (fun a => a.name.jsToLower == qname.jsTrim.jsToLower) = false) :
    collectionsEq (handleQuickAddAssignee s choreId qname
      (Except.error msg) (Except.ok ())).state s ∧
    hasError (handleQuickAddAssignee s choreId qname
      (Except.error msg) (Except.ok ())).state = true := by
  unfold handleQuickAddAssignee
  rw [if_neg hn, if_neg (by simp [hdup])]
  exact ⟨⟨rfl, rfl, rfl⟩, hasError_mk _ _ rfl (orDefault_ne _ _ (by decide))⟩

/-- A quick add whose chore update fails keeps the freshly inserted
assignee in the store, leaves chores and categories unchanged, and reports
an error: the insert step is not compensated. -/
theorem quickAdd_update_fail (s : AppState) (choreId qname msg : String)
    (na : Assignee) (chore : Chore)
    (hn : qname.jsTrim ≠ "")
    (hdup : s.assignees.any
      (fun a => a.name.jsToLower == qname.jsTrim.jsToLower) = false)
    (hfind : s.chores.find? (fun c => c.id == choreId) = some chore) :
    (handleQuickAddAssignee s choreId qname (Except.ok na)
      (Except.error msg)).state.assignees = s.assignees ++ [na] ∧
    (handleQuickAddAssignee s choreId qname (Except.ok na)
      (Except.error msg)).state.categories = s.categories ∧
    (handleQuickAddAssignee s choreId qname (Except.ok na)
      (Except.error msg)).state.chores = s.chores ∧
    hasError (handleQuickAddAssignee s choreId qname (Except.ok na)
      (Except.error msg)).state = true := by
  unfold handleQuickAddAssignee
  rw [if_neg hn, if_neg (by simp [hdup]), hfind]
  exact ⟨rfl, rfl, rfl, hasError_mk _ _ rfl (orDefault_ne _ _ (by decide))⟩

/-- A failed completion toggle restores the exact pre-mutation collections
and reports an error, provided the chore id identifies a unique element. -/
theorem toggleChore_fail (s : AppState) (choreId msg : String)
    (chore : Chore)
    (hfind : s.chores.find? (fun c => c.id == choreId) = some chore)
    (huniq : ∀ c ∈ s.chores, c.id = choreId → c = chore) :
    collectionsEq (handleToggleChore s choreId (Except.error msg)).state s ∧
    hasError (handleToggleChore s choreId (Except.error msg)).state = true := by
  unfold handleToggleChore
  rw [hfind]
  refine ⟨⟨rfl, rfl, ?_⟩, hasError_mk _ _ rfl (orDefault_ne _ _ (by decide))⟩
  show s.chores.map (fun c => if c.id == choreId then
    { c with completed := chore.completed } else c) = s.chores
  apply map_if_eq_self
  intro c hc hp
  have hceq : c.id = choreId := by simpa using hp
  have hcv := huniq c hc hceq
  subst hcv
  rfl

/-- A failed assignee toggle on a chore restores the exact pre-mutation
collections and reports an error. -/
theorem toggleAssignee_fail (s : AppState) (choreId assigneeId msg : String)
    (chore : Chore)
    (hfind : s.chores.find? (fun c => c.id == choreId) = some chore)
    (huniq : ∀ c ∈ s.chores, c.id = choreId → c = chore) :
    collectionsEq (handleToggleAssignee s choreId assigneeId
      (Except.error msg)).state s ∧
    hasError (handleToggleAssignee s choreId assigneeId
      (Except.error msg)).state = true := by
  unfold handleToggleAssignee
  rw [hfind]
  refine ⟨⟨rfl, rfl, ?_⟩, hasError_mk _ _ rfl (orDefault_ne _ _ (by decide))⟩
  show s.chores.map (fun c => if c.id == choreId then
    { c with assigneeIds := chore.assigneeIds } else c) = s.chores
  apply map_if_eq_self
  intro c hc hp
  have hceq : c.id = choreId := by simpa using hp
  have hcv := huniq c hc hceq
  subst hcv
  rfl

/-- A failed default-assignee toggle on a category restores the exact
pre-mutation collections and reports an error. -/
theorem toggleCategoryAssignee_fail (s : AppState)
    (categoryId assigneeId msg : String) (category : Category)
    (hfind : s.categories.find? (fun c => c.id == categoryId) =
      some category)
    (huniq : ∀ c ∈ s.categories, c.id = categoryId → c = category) :
    collectionsEq (handleToggleCategoryAssignee s categoryId assigneeId
      (Except.error msg)).state s ∧
    hasError (handleToggleCategoryAssignee s categoryId assigneeId
      (Except.error msg)).state = true := by
  unfold handleToggleCategoryAssignee
  rw [hfind]
  refine ⟨⟨rfl, ?_, rfl⟩, hasError_mk _ _ rfl (orDefault_ne _ _ (by decide))⟩
  show s.categories.map (fun c => if c.id == categoryId then
    { c with assigneeIds := category.assigneeIds } else c) = s.categories
  apply map_if_eq_self
  intro c hc hp
  have hceq : c.id = categoryId := by simpa using hp
  have hcv := huniq c hc hceq
  subst hcv
  rfl

/-- A failed chore delete reports an error but does not revert: the chore
stays removed from the store; the other collections are untouched. -/
theorem deleteChore_fail (s : AppState) (choreId msg : String) :
    (handleDeleteChore s choreId true
      (Except.error msg)).state.assignees = s.assignees ∧
    (handleDeleteChore s choreId true
      (Except.error msg)).state.categories = s.categories ∧
    (∀ c ∈ (handleDeleteChore s choreId true
      (Except.error msg)).state.chores, c.id ≠ choreId) ∧
    hasError (handleDeleteChore s choreId true
      (Except.error msg)).state = true := by
  unfold handleDeleteChore
  refine ⟨rfl, rfl, ?_, hasError_mk _ _ rfl (orDefault_ne _ _ (by decide))⟩
  intro c hc
  have := List.of_mem_filter hc
  simpa using this

/-- A failed bulk chore update during a category delete reports an error
but does not revert: the category stays removed and its chores stay
uncategorized; the row delete is never issued. -/
theorem deleteCategory_updfail (s : AppState) (categoryId msg : String)
    (category : Category) (delRes : Except String Unit)
    (hfind : s.categories.find? (fun c => c.id == categoryId) =
      some category) :
    (handleDeleteCategory s categoryId true (Except.error msg)
      delRes).state.assignees = s.assignees ∧
    (∀ g ∈ (handleDeleteCategory s categoryId true (Except.error msg)
      delRes).state.categories, g.id ≠ categoryId) ∧
    (∀ ch ∈ (handleDeleteCategory s categoryId true (Except.error msg)
      delRes).state.chores, ch.categoryId ≠ some categoryId) ∧
    hasError (handleDeleteCategory s categoryId true (Except.error msg)
      delRes).state = true ∧
    (handleDeleteCategory s categoryId true (Except.error msg)
      delRes).ops = [RemoteOp.clearCategoryOfChores categoryId] := by
  unfold handleDeleteCategory
  rw [hfind]
  refine ⟨rfl, ?_, ?_,
    hasError_mk _ _ rfl (orDefault_ne _ _ (by decide)), rfl⟩
  · intro g hg
    have := List.of_mem_filter hg
    simpa using this
  · intro ch hch
    rcases List.mem_map.mp hch with ⟨ch0, _, rfl⟩
    by_cases hc : ch0.categoryId == some categoryId
    · simp [hc]
    · have : ¬ch0.categoryId = some categoryId := by simpa using hc
      simpa [hc] using this

/-- A failed category-row delete (after a successful bulk update) reports
an error but does not revert: the category stays removed and its chores
stay uncategorized. -/
theorem deleteCategory_delfail (s : AppState) (categoryId msg : String)
    (category : Category)
    (hfind : s.categories.find? (fun c => c.id == categoryId) =
      some category) :
    (handleDeleteCategory s categoryId true (Except.ok ())
      (Except.error msg)).state.assignees = s.assignees ∧
    (∀ g ∈ (handleDeleteCategory s categoryId true (Except.ok ())
      (Except.error msg)).state.categories, g.id ≠ categoryId) ∧
    (∀ ch ∈ (handleDeleteCategory s categoryId true (Except.ok ())
      (Except.error msg)).state.chores,
      ch.categoryId ≠ some categoryId) ∧
    hasError (handleDeleteCategory s categoryId true (Except.ok ())
      (Except.error msg)).state = true := by
  unfold handleDeleteCategory
  rw [hfind]
  refine ⟨rfl, ?_, ?_,
    hasError_mk _ _ rfl (orDefault_ne _ _ (by decide))⟩
  · intro g hg
    have := List.of_mem_filter hg
    simpa using this
  · intro ch hch
    rcases List.mem_map.mp hch with ⟨ch0, _, rfl⟩
    by_cases hc : ch0.categoryId == some categoryId
    · simp [hc]
    · have : ¬ch0.categoryId = some categoryId := by simpa using hc
      simpa [hc] using this

/-- A failed assignee-row delete reports an error but does not revert: the
assignee stays removed and stripped from every chore and category list. -/
theorem deleteAssignee_fail (s : AppState) (assigneeId msg : String)
    (asg : Assignee)
    (hfind : s.assignees.find? (fun a => a.id == assigneeId) = some asg) :
    (∀ a ∈ (handleDeleteAssignee s assigneeId true
      (Except.error msg)).state.assignees, a.id ≠ assigneeId) ∧
    (∀ ch ∈ (handleDeleteAssignee s assigneeId true
      (Except.error msg)).state.chores, assigneeId ∉ ch.assigneeIds) ∧
    (∀ g ∈ (handleDeleteAssignee s assigneeId true
      (Except.error msg)).state.categories,
      assigneeId ∉ g.assigneeIds) ∧
    hasError (handleDeleteAssignee s assigneeId true
      (Except.error msg)).state = true := by
  unfold handleDeleteAssignee
  rw [hfind]
  refine ⟨?_, ?_, ?_, hasError_mk _ _ rfl (orDefault_ne _ _ (by decide))⟩
  · intro a ha
    have := List.of_mem_filter ha
    simpa using this
  · intro ch hch
    rcases List.mem_map.mp hch with ⟨ch0, _, rfl⟩
    intro hmem
    have := List.of_mem_filter hmem
    simp at this
  · intro g hg
    rcases List.mem_map.mp hg with ⟨g0, _, rfl⟩
    intro hmem
    have := List.of_mem_filter hmem
    simp at this

/-- A failed chore move reports an error but does not revert: every chore
with the moved id keeps the new category; the other collections are
untouched. -/
theorem moveChore_fail (s : AppState) (choreId msg : String)
    (moveTarget : Option String) :
    (handleMoveChoreToCategory s choreId moveTarget
      (Except.error msg)).state.assignees = s.assignees ∧
    (handleMoveChoreToCategory s choreId moveTarget
      (Except.error msg)).state.categories = s.categories ∧
    (∀ ch ∈ (handleMoveChoreToCategory s choreId moveTarget
      (Except.error msg)).state.chores,
      ch.id = choreId → ch.categoryId = moveTarget) ∧
    hasError (handleMoveChoreToCategory s choreId moveTarget
      (Except.error msg)).state = true := by
  unfold handleMoveChoreToCategory
  refine ⟨rfl, rfl, ?_, hasError_mk _ _ rfl (orDefault_ne _ _ (by decide))⟩
  intro ch hch
  rcases List.mem_map.mp hch with ⟨ch0, _, rfl⟩
  by_cases hc : ch0.id == choreId
  · simp [hc]
  · have : ¬ch0.id = choreId := by simpa using hc
    intro hid
    exact absurd (by simpa [hc] using hid) this

/-- C1 counterexample: when the remote delete of a chore fails, an error
is set but the entity store is not reverted to its pre-mutation snapshot:
the chore collection still lacks the optimistically removed chore. -/
theorem C1_counterexample :
    hasError (handleDeleteChore sampleState "c1" true
      (Except.error "network error")).state = true ∧
    (handleDeleteChore sampleState "c1" true
      (Except.error "network error")).state.chores ≠ sampleState.chores := by
  exact ⟨by decide, by decide⟩

/-- C1 amended: when a remote call of a state-changing operation fails, a
non-empty user-facing error message is always set, but the entity store is
restored to its exact pre-mutation snapshot only for the three toggle
operations (chore completion, chore assignee, category default assignee,
assuming ids identify unique elements) and for the add operations (which
modify the store only after remote success).  The delete and move
operations do not revert: a failed chore delete leaves the chore removed,
a failed category delete leaves the category removed and its chores
uncategorized (and, when the bulk update step failed, the row delete is
never issued), a failed assignee delete leaves the assignee removed and
stripped from every list, a failed move leaves the chore in the new
category, and a failed quick-add chore update leaves the freshly inserted
assignee in the store. -/
theorem C1_failure_rollback (s : AppState)
    (msg t catId2 nameA catName qname choreId assigneeId categoryId : String)
    (catOpt moveTarget : Option String) (na : Assignee) (chore : Chore)
    (category : Category) (asg : Assignee) (delRes : Except String Unit)
    (ht : t.jsTrim ≠ "")
    (hnameA : nameA.jsTrim ≠ "")
    (hdupA : s.assignees.any
      (fun a => a.name.jsToLower == nameA.jsTrim.jsToLower) = false)
    (hcatName : catName.jsTrim ≠ "")
    (hqname : qname.jsTrim ≠ "")
    (hdupQ : s.assignees.any
      (fun a => a.name.jsToLower == qname.jsTrim.jsToLower) = false)
    (hchore : s.chores.find? (fun c => c.id == choreId) = some chore)
    (huniqCh : ∀ c ∈ s.chores, c.id = choreId → c = chore)
    (hcat : s.categories.find? (fun c => c.id == categoryId) =
      some category)
    (huniqCat : ∀ c ∈ s.categories, c.id = categoryId → c = category)
    (hasg : s.assignees.find? (fun a => a.id == assigneeId) = some asg) :
    (collectionsEq (handleAddChore s t catOpt (Except.error msg)).state s ∧
      hasError (handleAddChore s t catOpt (Except.error msg)).state =
        true) ∧
    (collectionsEq (handleAddChoreInCategory s t catId2
        (Except.error msg)).state s ∧
      hasError (handleAddChoreInCategory s t catId2
        (Except.error msg)).state = true) ∧
    (collectionsEq (handleAddAssignee s nameA (Except.error msg)).state s ∧
      hasError (handleAddAssignee s nameA (Except.error msg)).state =
        true) ∧
    (collectionsEq (handleAddCategory s catName
        (Except.error msg)).state s ∧
      hasError (handleAddCategory s catName (Except.error msg)).state =
        true) ∧
    (collectionsEq (handleQuickAddAssignee s choreId qname
        (Except.error msg) (Except.ok ())).state s ∧
      hasError (handleQuickAddAssignee s choreId qname
        (Except.error msg) (Except.ok ())).state = true) ∧
    ((handleQuickAddAssignee s choreId qname (Except.ok na)
        (Except.error msg)).state.assignees = s.assignees ++ [na] ∧
      (handleQuickAddAssignee s choreId qname (Except.ok na)
        (Except.error msg)).state.categories = s.categories ∧
      (handleQuickAddAssignee s choreId qname (Except.ok na)
        (Except.error msg)).state.chores = s.chores ∧
      hasError (handleQuickAddAssignee s choreId qname (Except.ok na)
        (Except.error msg)).state = true) ∧
    (collectionsEq (handleToggleChore s choreId
        (Except.error msg)).state s ∧
      hasError (handleToggleChore s choreId (Except.error msg)).state =
        true) ∧
    (collectionsEq (handleToggleAssignee s choreId assigneeId
        (Except.error msg)).state s ∧
      hasError (handleToggleAssignee s choreId assigneeId
        (Except.error msg)).state = true) ∧
    (collectionsEq (handleToggleCategoryAssignee s categoryId assigneeId
        (Except.error msg)).state s ∧
      hasError (handleToggleCategoryAssignee s categoryId assigneeId
        (Except.error msg)).state = true) ∧
    ((handleDeleteChore s choreId true
        (Except.error msg)).state.assignees = s.assignees ∧
      (handleDeleteChore s choreId true
        (Except.error msg)).state.categories = s.categories ∧
      (∀ c ∈ (handleDeleteChore s choreId true
        (Except.error msg)).state.chores, c.id ≠ choreId) ∧
      hasError (handleDeleteChore s choreId true
        (Except.error msg)).state = true) ∧
    ((handleDeleteCategory s categoryId true (Except.error msg)
        delRes).state.assignees = s.assignees ∧
      (∀ g ∈ (handleDeleteCategory s categoryId true (Except.error msg)
        delRes).state.categories, g.id ≠ categoryId) ∧
      (∀ ch ∈ (handleDeleteCategory s categoryId true (Except.error msg)
        delRes).state.chores, ch.categoryId ≠ some categoryId) ∧
      hasError (handleDeleteCategory s categoryId true (Except.error msg)
        delRes).state = true ∧
      (handleDeleteCategory s categoryId true (Except.error msg)
        delRes).ops = [RemoteOp.clearCategoryOfChores categoryId]) ∧
    ((handleDeleteCategory s categoryId true (Except.ok ())
        (Except.error msg)).state.assignees = s.assignees ∧
      (∀ g ∈ (handleDeleteCategory s categoryId true (Except.ok ())
        (Except.error msg)).state.categories, g.id ≠ categoryId) ∧
      (∀ ch ∈ (handleDeleteCategory s categoryId true (Except.ok ())
        (Except.error msg)).state.chores,
        ch.categoryId ≠ some categoryId) ∧
      hasError (handleDeleteCategory s categoryId true (Except.ok ())
        (Except.error msg)).state = true) ∧
    ((∀ a ∈ (handleDeleteAssignee s assigneeId true
        (Except.error msg)).state.assignees, a.id ≠ assigneeId) ∧
      (∀ ch ∈ (handleDeleteAssignee s assigneeId true
        (Except.error msg)).state.chores,
        assigneeId ∉ ch.assigneeIds) ∧
      (∀ g ∈ (handleDeleteAssignee s assigneeId true
        (Except.error msg)).state.categories,
        assigneeId ∉ g.assigneeIds) ∧
      hasError (handleDeleteAssignee s assigneeId true
        (Except.error msg)).state = true) ∧
    ((handleMoveChoreToCategory s choreId moveTarget
        (Except.error msg)).state.assignees = s.assignees ∧
      (handleMoveChoreToCategory s choreId moveTarget
        (Except.error msg)).state.categories = s.categories ∧
      (∀ ch ∈ (handleMoveChoreToCategory s choreId moveTarget
        (Except.error msg)).state.chores,
        ch.id = choreId → ch.categoryId = moveTarget) ∧
      hasError (handleMoveChoreToCategory s choreId moveTarget
        (Except.error msg)).state = true) :=
  ⟨addChore_fail s t catOpt msg ht,
   addChoreInCategory_fail s t catId2 msg ht,
   addAssignee_fail s nameA msg hnameA hdupA,
   addCategory_fail s catName msg hcatName,
   quickAdd_insert_fail s choreId qname msg hqname hdupQ,
   quickAdd_update_fail s choreId qname msg na chore hqname hdupQ hchore,
   toggleChore_fail s choreId msg chore hchore huniqCh,
   toggleAssignee_fail s choreId assigneeId msg chore hchore huniqCh,
   toggleCategoryAssignee_fail s categoryId assigneeId msg category hcat
     huniqCat,
   deleteChore_fail s choreId msg,
   deleteCategory_updfail s categoryId msg category delRes hcat,
   deleteCategory_delfail s categoryId msg category hcat,
   deleteAssignee_fail s assigneeId msg asg hasg,
   moveChore_fail s choreId msg moveTarget⟩

/-- Witness for the amended C1 on the sample state: the failed-add and
failed-toggle components at concrete inputs. -/
theorem C1_failure_rollback_witness :
    (collectionsEq (handleAddChore sampleState "Sweep" none
        (Except.error "network error")).state sampleState ∧
      hasError (handleAddChore sampleState "Sweep" none
        (Except.error "network error")).state = true) ∧
    (collectionsEq (handleAddChoreInCategory sampleState "Sweep" "g1"
        (Except.error "network error")).state sampleState ∧
      hasError (handleAddChoreInCategory sampleState "Sweep" "g1"
        (Except.error "network error")).state = true) :=
  ⟨(C1_failure_rollback sampleState "network error" "Sweep" "g1" "Dana"
      "Garage" "Eve" "c1" "a2" "g1" none (some "g1")
      ⟨"a9", "Eve", "H1"⟩ mopChore kitchenC samA (Except.ok ())
      (by decide) (by decide) (by decide) (by decide) (by decide)
      (by decide) (by decide) (by decide) (by decide) (by decide)
      (by decide)).1,
   (C1_failure_rollback sampleState "network error" "Sweep" "g1" "Dana"
      "Garage" "Eve" "c1" "a2" "g1" none (some "g1")
      ⟨"a9", "Eve", "H1"⟩ mopChore kitchenC samA (Except.ok ())
      (by decide) (by decide) (by decide) (by decide) (by decide)
      (by decide) (by decide) (by decide) (by decide) (by decide)
      (by decide)).2.1⟩
